import Mathlib

/-!
Verification of the CopyLab notification template engine (`src/copylab.py`).

The development shallowly embeds the engine's pure core: condition
evaluation, template-filter resolution, weighted selection, placeholder
substitution, and the `generate_notification` orchestration over an
explicit document-store model.  Python dictionaries are modelled as
association lists with Python's insertion-order update semantics, Python
scalar values as the inductive `Value`, and payload (`data`) values as
`DVal` (strings plus an opaque tag for non-string values).  Randomness is
abstracted by an index oracle `r : Nat` that preserves exactly the support
of `random.choice` / `random.choices`.  Numeric parsing for
`greater_than` / `less_than` is modelled over exact rationals restricted
to plain decimal literals (no exponent / `inf` / underscore forms); the
same parser is shared by the embedded code and the reference semantics,
so no claim depends on the unmodelled literal forms.
-/

namespace CopyLab

/-- Python scalar value as passed in the caller's `variables` mapping or
stored in condition / filter-case `value` fields. -/
inductive Value where
  | str (s : String)
  | int (n : Int)
  | bool (b : Bool)
deriving DecidableEq, Repr

/-- Python value of a notification `data` payload entry: a string (subject
to template substitution) or an opaque non-string value (`raw`), which the
code passes through unchanged. -/
inductive DVal where
  | str (s : String)
  | raw (tag : Nat)
deriving DecidableEq, Repr

/-- Python `str()` on a scalar value. -/
def pyStr : Value → String
  | .str s => s
  | .int n => toString n
  | .bool b => if b then "True" else "False"

/-- Python `dict.get(k)`: the value at the first (hence, for a genuine
dict, the only) occurrence of key `k`. -/
def pyGet (l : List (String × α)) (k : String) : Option α :=
  match l.find? (fun kv => kv.1 == k) with
  | some kv => some kv.2
  | none => none

/-- Python `d[k] = v`: replace the value in place if the key is present
(keeping its position), otherwise append the new binding. -/
def pySet (l : List (String × α)) (k : String) (v : α) : List (String × α) :=
  match l with
  | [] => [(k, v)]
  | (k0, v0) :: rest => if k0 = k then (k, v) :: rest else (k0, v0) :: pySet rest k v

/-- Python `base.update(upd)`: apply each binding of `upd` in order. -/
def pyUpdate (base upd : List (String × α)) : List (String × α) :=
  upd.foldl (fun acc kv => pySet acc kv.1 kv.2) base

/-- Python string `<`: lexicographic comparison by Unicode code point,
with a proper prefix comparing less. -/
def pyStrLt : List Char → List Char → Bool
  | [], [] => false
  | [], _ :: _ => true
  | _ :: _, [] => false
  | a :: as, b :: bs =>
    if a.toNat < b.toNat then true
    else if b.toNat < a.toNat then false
    else pyStrLt as bs

/-- Whether `pat` is an initial segment of `l` (character-wise). -/
def leadsWith : List Char → List Char → Bool
  | [], _ => true
  | _ :: _, [] => false
  | a :: as, b :: bs => a == b && leadsWith as bs

/-- Python `needle in hay` on strings: substring occurrence test. -/
def hasSub (needle : List Char) : List Char → Bool
  | [] => needle.isEmpty
  | c :: rest => leadsWith needle (c :: rest) || hasSub needle rest

/-- Decimal value of a digit list (most significant first). -/
def digitsVal (l : List Char) : Nat :=
  l.foldl (fun n c => n * 10 + (c.toNat - 48)) 0

/-- Model of Python `float()` restricted to plain decimal literals:
optional sign, then digits, optionally with a decimal point (`"1"`,
`"-2.5"`, `"1."`, `".5"`).  Returns `none` exactly when Python would raise
`ValueError` on such literals; exotic accepted forms (exponents, `inf`,
`nan`, underscores, surrounding whitespace) are outside the model. -/
def parseNum (s : String) : Option ℚ :=
  let signed : Int × List Char :=
    match s.data with
    | '-' :: rest => (-1, rest)
    | '+' :: rest => (1, rest)
    | _ => (1, s.data)
  let intPart := signed.2.takeWhile Char.isDigit
  let rest := signed.2.dropWhile Char.isDigit
  match rest with
  | [] =>
    if intPart.isEmpty then none
    else some ((signed.1 * (digitsVal intPart : Int) : Int) : ℚ)
  | '.' :: frac =>
    if frac.all Char.isDigit && (!intPart.isEmpty || !frac.isEmpty) then
      some ((signed.1 : ℚ) *
        ((digitsVal intPart : ℚ) + (digitsVal frac : ℚ) / ((10 : ℚ) ^ frac.length)))
    else none
  | _ => none

/-- Condition record `{"variable": ..., "operator": ..., "value": ...}`.
The source reads each key with `condition.get(key, default)`, so a missing
key is observationally the default (`""` / `"equals"` / `""`); the record
therefore stores the three fields directly (`var` stands for the source
key `"variable"`, a Lean keyword). -/
structure Condition where
  var : String
  operator : String
  value : Value
deriving DecidableEq, Repr

/-- Embedding of `evaluate_condition` (src/copylab.py lines 302-344). -/
def evaluate_condition (condition : Condition) (vars : List (String × Value)) : Bool :=
  let operator := condition.operator
  let actual_value := pyGet vars condition.var
  if operator == "exists" then
    actual_value.isSome && actual_value != some (Value.str "")
  else
    match actual_value with
    | none => operator == "not_equals"
    | some actual =>
      let actual_str := pyStr actual
      let target_str := pyStr condition.value
      if operator == "equals" then actual_str == target_str
      else if operator == "not_equals" then actual_str != target_str
      else if operator == "contains" then hasSub target_str.data actual_str.data
      else if operator == "greater_than" then
        match parseNum actual_str, parseNum target_str with
        | some a, some b => decide (a > b)
        | _, _ => pyStrLt target_str.data actual_str.data
      else if operator == "less_than" then
        match parseNum actual_str, parseNum target_str with
        | some a, some b => decide (a < b)
        | _, _ => pyStrLt actual_str.data target_str.data
      else false

/-- Reference semantics of the condition evaluator, written from the
claim: `exists` is true iff the variable is present and not the empty
string; for every other operator an absent variable yields true exactly
for `not_equals`; when present, `equals` / `not_equals` / `contains`
compare stringified values, the numeric comparisons attempt numeric
parses of both sides and fall back to lexicographic string comparison on
parse failure of either side; an unknown operator yields false. -/
def evaluate_condition_spec (condition : Condition) (vars : List (String × Value)) : Bool :=
  match pyGet vars condition.var with
  | none =>
    if condition.operator == "exists" then false
    else condition.operator == "not_equals"
  | some actual =>
    if condition.operator == "exists" then !(actual == Value.str "") else
    if condition.operator == "equals" then pyStr actual == pyStr condition.value else
    if condition.operator == "not_equals" then !(pyStr actual == pyStr condition.value) else
    if condition.operator == "contains" then
      hasSub (pyStr condition.value).data (pyStr actual).data else
    if condition.operator == "greater_than" then
      match parseNum (pyStr actual), parseNum (pyStr condition.value) with
      | some a, some b => decide (a > b)
      | _, _ => pyStrLt (pyStr condition.value).data (pyStr actual).data
    else if condition.operator == "less_than" then
      match parseNum (pyStr actual), parseNum (pyStr condition.value) with
      | some a, some b => decide (a < b)
      | _, _ => pyStrLt (pyStr actual).data (pyStr condition.value).data
    else false

/-- C5: `evaluate_condition` is a total boolean function (it is a Lean
function into `Bool`, so it returns a boolean on every input and cannot
raise) and agrees everywhere with the reference semantics stated by the
claim: `exists` tests presence-and-nonemptiness, absence short-circuits to
`operator = "not_equals"`, present values are compared stringified, the
numeric comparisons fall back to lexicographic comparison on parse
failure, and unknown operators yield false. -/
theorem condition_evaluator_totality (c : Condition) (v : List (String × Value)) :
    evaluate_condition c v = evaluate_condition_spec c v := by
  unfold evaluate_condition evaluate_condition_spec
  cases hpg : pyGet v c.var with
  | none =>
    by_cases hex : c.operator = "exists" <;>
      simp [hex, Option.isSome]
  | some actual =>
    by_cases hex : c.operator = "exists"
    · simp [hex, Option.isSome]
      cases h2 : actual == Value.str "" <;> simp_all
    · simp [hex, bne]

/-- Filter case `{"value": ..., "templateIds": [...]}`; missing keys read
via `.get` behave as the defaults `""` / `[]`, stored directly. -/
structure FilterCase where
  value : Value
  templateIds : List String
deriving DecidableEq, Repr

/-- Filter rule `{"inputVariable": ..., "cases": [...],
"defaultTemplateIds": [...]}`; missing keys behave as defaults. -/
structure FilterRule where
  inputVariable : String
  cases : List FilterCase
  defaultTemplateIds : List String
deriving DecidableEq, Repr

/-- The source's case loop: first case whose stringified `value` equals
`actual` (then `break`), as `matched_ids`; `none` when no case matched. -/
def matchCase (actual : String) : List FilterCase → Option (List String)
  | [] => none
  | c :: rest => if pyStr c.value == actual then some c.templateIds else matchCase actual rest

/-- One rule's `matched_ids` after the `if matched_ids is None` default
step of the source. -/
def ruleIds (f : FilterRule) (vars : List (String × Value)) : List String :=
  let actual_value := pyStr ((pyGet vars f.inputVariable).getD (Value.str ""))
  (matchCase actual_value f.cases).getD f.defaultTemplateIds

/-- Embedding of `apply_template_filters` (src/copylab.py lines 347-400).
Python sets are modelled by `Finset String`: the source returns
`list(result)` whose element order is unspecified, and only membership is
consumed downstream. -/
def apply_template_filters (filters : List FilterRule) (vars : List (String × Value)) :
    Option (Finset String) :=
  if filters.isEmpty then none
  else
    let eligible_sets := filters.foldl
      (fun acc f =>
        let matched_ids := ruleIds f vars
        if matched_ids.isEmpty then acc else acc ++ [matched_ids.toFinset])
      ([] : List (Finset String))
    match eligible_sets with
    | [] => none
    | s :: rest => some (rest.foldl (fun a b => a ∩ b) s)

/-- One rule's contribution, written from the claim: the `templateIds` of
the first case whose stringified value equals the stringified runtime
value of `inputVariable` (absent variable stringifies as the empty
string), or `defaultTemplateIds` if no case matches. -/
def ruleContribution_spec (f : FilterRule) (vars : List (String × Value)) : List String :=
  let actual := pyStr ((pyGet vars f.inputVariable).getD (Value.str ""))
  match f.cases.find? (fun c => pyStr c.value == actual) with
  | some c => c.templateIds
  | none => f.defaultTemplateIds

/-- Reference definition of the filter resolver, written from the claim:
empty contributions are skipped; if no rule contributed IDs (including the
empty-filter-list case) the result is the `none` sentinel; otherwise the
set intersection of all non-empty contributions, an empty intersection
being a valid empty-set result distinct from `none`. -/
def apply_template_filters_spec (filters : List FilterRule) (vars : List (String × Value)) :
    Option (Finset String) :=
  let contributions := (filters.map (fun f => ruleContribution_spec f vars)).filter
    (fun l => !l.isEmpty)
  match contributions.map List.toFinset with
  | [] => none
  | s :: rest => some (rest.foldl (fun a b => a ∩ b) s)

theorem matchCase_eq_find (actual : String) (cases : List FilterCase) :
    matchCase actual cases = (cases.find? (fun c => pyStr c.value == actual)).map
      (fun c => c.templateIds) := by
  induction cases with
  | nil => rfl
  | cons c rest ih =>
    unfold matchCase
    rw [List.find?]
    cases h : (pyStr c.value == actual) <;> simp [h, ih]

theorem filters_foldl_eq (filters : List FilterRule) (vars : List (String × Value))
    (acc : List (Finset String)) :
    filters.foldl
      (fun acc f =>
        let matched_ids := ruleIds f vars
        if matched_ids.isEmpty then acc else acc ++ [matched_ids.toFinset]) acc =
    acc ++ ((filters.map (fun f => ruleContribution_spec f vars)).filter
      (fun l => !l.isEmpty)).map List.toFinset := by
  induction filters generalizing acc with
  | nil => simp
  | cons f rest ih =>
    have hr : ruleIds f vars = ruleContribution_spec f vars := by
      simp only [ruleIds, ruleContribution_spec, matchCase_eq_find]
      cases (f.cases.find? (fun c => pyStr c.value ==
        pyStr ((pyGet vars f.inputVariable).getD (Value.str "")))) <;> simp
    simp only [List.foldl, List.map, List.filter]
    rw [ih, hr]
    cases h : ((ruleContribution_spec f vars).isEmpty) <;> simp [h]

/-- C4: `apply_template_filters` agrees everywhere with the reference
definition from the claim: `none` for an empty filter list or when no rule
contributed a non-empty ID list; otherwise the set intersection of the
non-empty per-rule contributions (first matching case wins, absent
variables stringify to the empty string, unmatched rules contribute their
`defaultTemplateIds`), with a genuinely empty intersection returned as the
empty set rather than the `none` sentinel. -/
theorem filter_resolver_refines (filters : List FilterRule) (vars : List (String × Value)) :
    apply_template_filters filters vars = apply_template_filters_spec filters vars := by
  unfold apply_template_filters apply_template_filters_spec
  cases hf : filters.isEmpty
  · simp only [Bool.false_eq_true, if_false]
    rw [filters_foldl_eq]
    simp
  · have : filters = [] := by
      cases filters with
      | nil => rfl
      | cons a b => simp [List.isEmpty] at hf
    subst this
    simp

/-- Template record as enriched and consumed by the selection pipeline
(`get_random_template` injects `id` and the `_placement_*` fields before
`_filter_templates_by_conditions` / `_weighted_random_choice` see it). -/
structure RTemplate where
  id : String
  name : Option String
  title_template : Option String
  body_template : Option String
  data : Option (List (String × DVal))
  conditions : List Condition
  weight : Option Int
  placement_id : String
  placement_name : String
  placement_defaults : List (String × Value)
  placement_data : List (String × DVal)
deriving DecidableEq, Repr

/-- Python `template.get('weight', 0)`; weights are modelled as integers. -/
def template_weight (t : RTemplate) : Int := t.weight.getD 0

/-- Embedding of `_filter_templates_by_conditions` (src/copylab.py lines
406-423): templates with no conditions always pass; otherwise all
conditions must evaluate true. -/
def filter_templates_by_conditions (templates : List RTemplate)
    (vars : List (String × Value)) : List RTemplate :=
  templates.filter (fun t =>
    t.conditions.isEmpty || t.conditions.all (fun c => evaluate_condition c vars))

/-- Embedding of `_weighted_random_choice` (src/copylab.py lines 426-452).
The pseudo-random source is abstracted by the index oracle `r`: both
`random.choice(l)` and `random.choices(l, weights, k=1)[0]` are modelled
as `l[r % len(l)]`, which has exactly the same support (`random.choices`
with all-positive weights can return every listed element and nothing
else), while the numeric distribution itself is outside the model. -/
def weighted_random_choice (r : Nat) (templates : List RTemplate) : Option RTemplate :=
  if templates.isEmpty then none
  else
    let weighted_templates := templates.map (fun t => (t, template_weight t))
    let total_weight := (weighted_templates.map (fun p => p.2)).sum
    if 0 < total_weight then
      let templates_with_weight := weighted_templates.filter (fun p => decide (0 < p.2))
      if templates_with_weight.isEmpty then templates[r % templates.length]?
      else (templates_with_weight.map (fun p => p.1))[r % templates_with_weight.length]?
    else templates[r % templates.length]?

theorem sum_pos_of_mem {l : List Int} (hnn : ∀ x ∈ l, 0 ≤ x) {y : Int}
    (hy : y ∈ l) (hypos : 0 < y) : 0 < l.sum := by
  induction l with
  | nil => cases hy
  | cons a rest ih =>
    rw [List.sum_cons]
    rcases List.mem_cons.1 hy with h | h
    · subst h
      have : 0 ≤ rest.sum := List.sum_nonneg (fun x hx => hnn x (List.mem_cons_of_mem _ hx))
      omega
    · have ha : 0 ≤ a := hnn a (List.mem_cons_self _ _)
      have := ih (fun x hx => hnn x (List.mem_cons_of_mem _ hx)) h
      omega

/-- C6: support of the weighted selector.  An empty candidate list yields
`none`; for non-negative weights with at least one positive weight, the
selected template always exists, is a candidate, and has positive weight
(a weight-0 template is never returned); when every weight is 0 the
selection is the uniform-choice branch over the full candidate list: it
always returns some candidate and every candidate is attainable for some
value of the random oracle. -/
theorem weighted_selector_support (r : Nat) (ts : List RTemplate) :
    (ts = [] → weighted_random_choice r ts = none)
    ∧ (ts ≠ [] → (∀ t ∈ ts, 0 ≤ template_weight t) →
        (∃ t ∈ ts, 0 < template_weight t) →
        ∃ u, weighted_random_choice r ts = some u ∧ u ∈ ts ∧ 0 < template_weight u)
    ∧ ((∀ t ∈ ts, template_weight t = 0) → ts ≠ [] →
        (∃ u ∈ ts, weighted_random_choice r ts = some u)
        ∧ ∀ t ∈ ts, ∃ r2, weighted_random_choice r2 ts = some t) := by
  refine ⟨?_, ?_, ?_⟩
  · intro h; subst h; rfl
  · intro hne hnn ⟨t0, ht0mem, ht0pos⟩
    have hsum : 0 < ((ts.map (fun t => (t, template_weight t))).map (fun p => p.2)).sum := by
      apply sum_pos_of_mem (y := template_weight t0)
      · intro x hx
        simp only [List.map_map, List.mem_map] at hx
        obtain ⟨t, htmem, rfl⟩ := hx
        exact hnn t htmem
      · simp only [List.map_map, List.mem_map]
        exact ⟨t0, ht0mem, rfl⟩
      · exact ht0pos
    have hts : ts.isEmpty = false := by
      cases ts with
      | nil => exact absurd rfl hne
      | cons a b => rfl
    simp only [weighted_random_choice, hts, Bool.false_eq_true, if_false, if_pos hsum]
    set tw := (ts.map (fun t => (t, template_weight t))).filter (fun p => decide (0 < p.2))
      with htw
    have htwmem : (t0, template_weight t0) ∈ tw := by
      rw [htw, List.mem_filter]
      constructor
      · exact List.mem_map.2 ⟨t0, ht0mem, rfl⟩
      · simpa using ht0pos
    have htwne : tw.isEmpty = false := by
      cases h : tw with
      | nil => rw [h] at htwmem; cases htwmem
      | cons a b => rfl
    rw [htwne]
    simp only [Bool.false_eq_true, if_false]
    have hlen : r % tw.length < (tw.map (fun p => p.1)).length := by
      rw [List.length_map]
      exact Nat.mod_lt _ (by
        cases h : tw with
        | nil => rw [h] at htwmem; cases htwmem
        | cons a b => simp)
    refine ⟨(tw.map (fun p => p.1)).get ⟨r % tw.length, hlen⟩, ?_, ?_, ?_⟩
    · exact List.getElem?_eq_getElem hlen
    · have hmem := List.getElem_mem hlen
      rw [List.mem_map] at hmem
      obtain ⟨p, hp, hpe⟩ := hmem
      rw [htw, List.mem_filter] at hp
      obtain ⟨hp1, _⟩ := hp
      rw [List.mem_map] at hp1
      obtain ⟨t, htmem, rfl⟩ := hp1
      rw [List.get_eq_getElem, ← hpe]
      exact htmem
    · have hmem := List.getElem_mem hlen
      rw [List.mem_map] at hmem
      obtain ⟨p, hp, hpe⟩ := hmem
      rw [htw, List.mem_filter] at hp
      obtain ⟨hp1, hp2⟩ := hp
      rw [List.mem_map] at hp1
      obtain ⟨t, htmem, rfl⟩ := hp1
      rw [List.get_eq_getElem, ← hpe]
      simpa using hp2
  · intro hz hne
    have hts : ts.isEmpty = false := by
      cases ts with
      | nil => exact absurd rfl hne
      | cons a b => rfl
    have hsum : ((ts.map (fun t => (t, template_weight t))).map (fun p => p.2)).sum = 0 := by
      apply List.sum_eq_zero
      intro x hx
      simp only [List.map_map, List.mem_map] at hx
      obtain ⟨t, htmem, rfl⟩ := hx
      exact hz t htmem
    constructor
    · have hlen : r % ts.length < ts.length := by
        apply Nat.mod_lt
        cases ts with
        | nil => exact absurd rfl hne
        | cons a b => simp
      refine ⟨ts.get ⟨r % ts.length, hlen⟩, List.getElem_mem hlen, ?_⟩
      simp only [weighted_random_choice, hts, Bool.false_eq_true, if_false,
        if_neg (by rw [hsum]; omega : ¬ 0 < ((ts.map (fun t => (t, template_weight t))).map (fun p => p.2)).sum)]
      exact List.getElem?_eq_getElem hlen
    · intro t htmem
      obtain ⟨i, hi, hie⟩ := List.mem_iff_getElem.1 htmem
      refine ⟨i, ?_⟩
      simp only [weighted_random_choice, hts, Bool.false_eq_true, if_false,
        if_neg (by rw [hsum]; omega : ¬ 0 < ((ts.map (fun t => (t, template_weight t))).map (fun p => p.2)).sum)]
      rw [Nat.mod_eq_of_lt hi]
      rw [List.getElem?_eq_getElem hi, hie]

/-- Fuelled scanner for `re.findall(r'\x7b([^\x7d]+)\x7d', s)`: at each
`'{'` the regex greedily takes the following non-`'}'` characters and
requires at least one of them plus a closing `'}'`; matches are
non-overlapping and scanning resumes after the closing brace.  The fuel
is the remaining character count, so `scanPH` below never exhausts it. -/
def scanPHF : Nat → List Char → List String
  | 0, _ => []
  | _ + 1, [] => []
  | fuel + 1, c :: rest =>
    if c == '{' then
      match rest.dropWhile (fun ch => !(ch == '}')) with
      | '}' :: tail =>
        if (rest.takeWhile (fun ch => !(ch == '}'))).isEmpty then scanPHF fuel rest
        else String.mk (rest.takeWhile (fun ch => !(ch == '}'))) :: scanPHF fuel tail
      | _ => scanPHF fuel rest
    else scanPHF fuel rest

/-- The placeholder names found in a template string, in match order and
with duplicates, as by the source's `re.findall` call. -/
def scanPH (s : String) : List String := scanPHF s.data.length s.data

/-- Fuelled Python `str.replace(pat, rep)`: replace every non-overlapping
occurrence of `pat`, scanning left to right.  An empty pattern never
arises in the source (patterns are brace-wrapped names) and is modelled as
no replacement. -/
def replAllF : Nat → List Char → List Char → List Char → List Char
  | 0, _, _, _ => []
  | _ + 1, _, _, [] => []
  | fuel + 1, pat, rep, c :: rest =>
    if !pat.isEmpty && leadsWith pat (c :: rest) then
      rep ++ replAllF fuel pat rep ((c :: rest).drop pat.length)
    else c :: replAllF fuel pat rep rest

/-- Python `s.replace(pat, rep)` on strings. -/
def replaceAllStr (s pat rep : String) : String :=
  String.mk (replAllF s.data.length pat.data rep.data s.data)

/-- Embedding of `apply_template` (src/copylab.py lines 589-631): scan the
original template string for placeholders, then for each found name (in
order, duplicates included) resolve a value and textually replace every
occurrence of the brace-wrapped placeholder in the working result. -/
def apply_template (template_string : String) (vars : List (String × Value))
    (defaults : List (String × Value)) : String :=
  if template_string == "" then ""
  else
    (scanPH template_string).foldl
      (fun result var_name =>
        let placeholder := "\x7b" ++ var_name ++ "\x7d"
        let value :=
          match pyGet vars var_name with
          | some v => pyStr v
          | none =>
            match pyGet defaults placeholder with
            | some v => pyStr v
            | none =>
              match pyGet defaults var_name with
              | some v => pyStr v
              | none => placeholder
        replaceAllStr result placeholder value)
      template_string

/-- Resolution of a single placeholder name, written from the claim: the
stringified `variables[name]` when present, else the stringified
brace-wrapped default, else the stringified bare-key default, else the
literal placeholder text. -/
def resolve_placeholder (vars defaults : List (String × Value)) (name : String) : String :=
  match pyGet vars name with
  | some v => pyStr v
  | none =>
    match pyGet defaults ("\x7b" ++ name ++ "\x7d") with
    | some v => pyStr v
    | none =>
      match pyGet defaults name with
      | some v => pyStr v
      | none => "\x7b" ++ name ++ "\x7d"

/-- C7: every placeholder found in the template string is resolved in the
claim's fixed order (variables, then brace-wrapped default key, then bare
default key, then left as literal text) and replaced at every occurrence:
`apply_template` equals the fold that replaces each scanned placeholder by
`resolve_placeholder`; moreover the claim's two concrete instances hold,
and a placeholder occurring twice is substituted at both occurrences. -/
theorem placeholder_resolution_order :
    (∀ (s : String) (vars defaults : List (String × Value)),
      apply_template s vars defaults =
        (scanPH s).foldl
          (fun result name =>
            replaceAllStr result ("\x7b" ++ name ++ "\x7d")
              (resolve_placeholder vars defaults name)) s)
    ∧ apply_template "\x7bx\x7d" []
        [("\x7bx\x7d", Value.str "D1"), ("x", Value.str "D2")] = "D1"
    ∧ apply_template "Hi \x7bname\x7d" [] [] = "Hi \x7bname\x7d"
    ∧ apply_template "\x7bx\x7d and \x7bx\x7d" [("x", Value.str "A")] [] = "A and A" := by
  refine ⟨?_, by decide, by decide, by decide⟩
  intro s vars defaults
  unfold apply_template resolve_placeholder
  cases h : (s == "") with
  | true =>
    have : s = "" := by simpa using h
    subst this
    rfl
  | false => rfl

/-- Python slice `s[:i]` including negative-index semantics: a negative
`i` keeps all but the last `|i|` characters. -/
def pySliceTo (s : String) (i : Int) : String :=
  if 0 ≤ i then String.mk (s.data.take i.toNat)
  else String.mk (s.data.take (s.data.length - i.natAbs))

/-- The `max_length` truncation step of `_process_notification_content`
(src/copylab.py lines 653-655): `if max_length and len(processed_message)
> max_length`, truncate to `processed_message[:max_length-3] + "..."`.
The Python `None` / `0` falsiness of `max_length` is modelled by
`Option Int` plus the `m ≠ 0` conjunct. -/
def truncate_message (message : String) (max_length : Option Int) : String :=
  match max_length with
  | some m =>
    if m ≠ 0 ∧ (message.data.length : Int) > m then pySliceTo message (m - 3) ++ "..."
    else message
  | none => message

/-- Substitution applied to one `data` value: strings are rendered,
non-string values pass through unchanged. -/
def process_data_value (v : DVal) (vars defaults : List (String × Value)) : DVal :=
  match v with
  | .str s => .str (apply_template s vars defaults)
  | v => v

/-- The `data` loop of `_process_notification_content`. -/
def process_data (data : List (String × DVal)) (vars defaults : List (String × Value)) :
    List (String × DVal) :=
  data.map (fun kv => (kv.1, process_data_value kv.2 vars defaults))

/-- Result record of `_process_notification_content`. -/
structure ProcessedContent where
  title : String
  message : String
  data : List (String × DVal)
deriving DecidableEq, Repr

/-- Embedding of `_process_notification_content` (src/copylab.py lines
634-669). -/
def process_notification_content (title message : String) (data : List (String × DVal))
    (vars defaults : List (String × Value)) (max_length : Option Int) : ProcessedContent :=
  { title := apply_template title vars defaults,
    message := truncate_message (apply_template message vars defaults) max_length,
    data := process_data data vars defaults }

theorem pyGet_process_data (data : List (String × DVal)) (vars defaults : List (String × Value))
    (k : String) :
    pyGet (process_data data vars defaults) k =
      (pyGet data k).map (fun v => process_data_value v vars defaults) := by
  induction data with
  | nil => rfl
  | cons kv rest ih =>
    unfold process_data at ih ⊢
    simp only [List.map, pyGet, List.find?]
    cases h : (kv.1 == k) <;> simp [h, pyGet] at ih ⊢
    exact ih

/-- C2 counterexample input, and C8's divergences, rely on evaluating the
renderer on concrete strings; this small sanity example checks the scanner
against a representative template. -/
theorem scanPH_example : scanPH "a \x7bu\x7d b \x7bv\x7d \x7bu\x7d" = ["u", "v", "u"] := by
  decide

/-- C8 counterexample: with `max_length = 2` the code truncates via the
Python slice `[:2-3] = [:-1]` (drop the last character), not to the
"first `max_length - 3` characters", and the resulting message has length
7, not `max_length`.  The rendered message `"abcde"` (no placeholders) has
length 5, which exceeds `max_length = 2`, yet the result is
`"abcd..."`. -/
theorem truncation_claim_counterexample :
    (process_notification_content "" "abcde" [] [] [] (some 2)).message = "abcd..." ∧
    ¬ ((process_notification_content "" "abcde" [] [] [] (some 2)).message.data.length = 2) ∧
    ((5 : Int) > 2) := by
  refine ⟨by decide, by decide, by decide⟩

/-- C8 (amended with `3 ≤ max_length`, which the counterexample forces —
for smaller values the Python slice is a negative slice, and `0` is falsy
so no truncation happens): when a `max_length ≥ 3` is supplied, a rendered
message longer than `max_length` becomes its first `max_length - 3`
characters followed by the 3-character `"..."`, for a total length of
exactly `max_length`; a rendered message of length at most `max_length` is
returned unchanged; and non-string values in the auxiliary payload map
pass through unchanged. -/
theorem truncation_amended (title message : String) (data : List (String × DVal))
    (vars defaults : List (String × Value)) (m : Int) (hm : 3 ≤ m) :
    (((apply_template message vars defaults).data.length : Int) > m →
      (process_notification_content title message data vars defaults (some m)).message =
        String.mk ((apply_template message vars defaults).data.take (m - 3).toNat) ++ "..." ∧
      (((process_notification_content title message data vars defaults
          (some m)).message.data.length : Int) = m))
    ∧ (((apply_template message vars defaults).data.length : Int) ≤ m →
      (process_notification_content title message data vars defaults (some m)).message =
        apply_template message vars defaults)
    ∧ (∀ k n, pyGet data k = some (DVal.raw n) →
      pyGet (process_notification_content title message data vars defaults (some m)).data k =
        some (DVal.raw n)) := by
  refine ⟨?_, ?_, ?_⟩
  · intro hlong
    have hcond : (m ≠ 0 ∧ ((apply_template message vars defaults).data.length : Int) > m) :=
      ⟨by omega, hlong⟩
    constructor
    · simp only [process_notification_content, truncate_message, if_pos hcond, pySliceTo,
        if_pos (by omega : (0 : Int) ≤ m - 3)]
    · simp only [process_notification_content, truncate_message, if_pos hcond, pySliceTo,
        if_pos (by omega : (0 : Int) ≤ m - 3)]
      have hdata : (String.mk ((apply_template message vars defaults).data.take
          (m - 3).toNat) ++ "...").data =
          (apply_template message vars defaults).data.take (m - 3).toNat ++ "...".data := by
        rfl
      rw [hdata, List.length_append, List.length_take]
      have h1 : (m - 3).toNat ≤ (apply_template message vars defaults).data.length := by
        omega
      have h2 : min (m - 3).toNat (apply_template message vars defaults).data.length =
          (m - 3).toNat := Nat.min_eq_left h1
      rw [h2]
      have : (((m - 3).toNat : Int)) = m - 3 := by omega
      have h3 : ("...".data.length) = 3 := by decide
      rw [h3]
      push_cast
      omega
  · intro hshort
    simp only [process_notification_content, truncate_message]
    rw [if_neg (by omega : ¬ (m ≠ 0 ∧ ((apply_template message vars defaults).data.length : Int) > m))]
  · intro k n hk
    simp only [process_notification_content, pyGet_process_data, hk, Option.map_some]
    rfl

/-- Raw template document in the `templates` subcollection.  Fields read
with `.get(key)` are `Option`s; `conditions` read with `.get(key, [])`
is stored directly (a missing key behaves as the default). -/
structure TemplateDoc where
  id : Option String
  name : Option String
  title_template : Option String
  body_template : Option String
  data : Option (List (String × DVal))
  conditions : List Condition
  weight : Option Int
  isActive : Option Bool
deriving DecidableEq, Repr

/-- Raw placement document `notification_templates/{placement_id}`,
with its `templates` subcollection in stream order. -/
structure PlacementDoc where
  name : Option String
  varNames : List String
  previewDefaults : List (String × Value)
  defaultData : List (String × DVal)
  templateFilters : List FilterRule
  activeTemplateId : Option String
  activeTemplateIds : List String
  templates : List (String × TemplateDoc)
deriving DecidableEq, Repr

/-- The Firestore contents visible to the engine: the scoped
`notification_templates` collection.  All store reads in the source are
wrapped in `try/except` blocks that degrade to `None`, so a pure total
lookup model is faithful for the non-raising executions. -/
structure Store where
  placements : List (String × PlacementDoc)
deriving DecidableEq, Repr

/-- Enrichment performed in the `activeTemplateIds` path of
`get_random_template`: `template['id'] = template_doc.id` overwrites any
`id` field with the document id. -/
def enrich_active (template_id : String) (doc : TemplateDoc) (parent : PlacementDoc)
    (placement_id : String) : RTemplate :=
  { id := template_id,
    name := doc.name,
    title_template := doc.title_template,
    body_template := doc.body_template,
    data := doc.data,
    conditions := doc.conditions,
    weight := doc.weight,
    placement_id := placement_id,
    placement_name := parent.name.getD placement_id,
    placement_defaults := parent.previewDefaults,
    placement_data := parent.defaultData }

/-- Enrichment performed in the full-scan path: `data['id'] = t.id` only
`if 'id' not in data`, so an `id` field present in the document wins. -/
def enrich_scan (template_id : String) (doc : TemplateDoc) (parent : PlacementDoc)
    (placement_id : String) : RTemplate :=
  { enrich_active template_id doc parent placement_id with id := doc.id.getD template_id }

/-- Shared tail of both branches of `get_random_template`: restrict to the
eligible-ID set when one was computed (`return None` when that restriction
empties a non-empty candidate list), filter by conditions, and select.
The outer `none` means the branch fell through (no `return` executed). -/
def select_within (r : Nat) (all_templates : List RTemplate) (vars : List (String × Value))
    (eligible_template_ids : Option (Finset String)) : Option (Option RTemplate) :=
  if all_templates.isEmpty then none
  else
    match eligible_template_ids with
    | some ids =>
      if (all_templates.filter (fun t => decide (t.id ∈ ids))).isEmpty then some none
      else
        if (filter_templates_by_conditions
            (all_templates.filter (fun t => decide (t.id ∈ ids))) vars).isEmpty then none
        else some (weighted_random_choice r
          (filter_templates_by_conditions
            (all_templates.filter (fun t => decide (t.id ∈ ids))) vars))
    | none =>
      if (filter_templates_by_conditions all_templates vars).isEmpty then none
      else some (weighted_random_choice r (filter_templates_by_conditions all_templates vars))

/-- Embedding of `get_random_template` (src/copylab.py lines 455-548): try
the `activeTemplateIds` fast path (fetch each listed document, keep the
`isActive is True` ones); if that path does not return, fall back to
streaming the whole subcollection.  Both paths share `select_within`. -/
def get_random_template (store : Store) (r : Nat) (placement_id : String)
    (vars : List (String × Value)) (eligible_template_ids : Option (Finset String)) :
    Option RTemplate :=
  match pyGet store.placements placement_id with
  | none => none
  | some parent_data =>
    let from_active :=
      if parent_data.activeTemplateIds.isEmpty then none
      else
        select_within r
          (parent_data.activeTemplateIds.filterMap (fun template_id =>
            match pyGet parent_data.templates template_id with
            | some doc =>
              if doc.isActive == some true then
                some (enrich_active template_id doc parent_data placement_id)
              else none
            | none => none))
          vars eligible_template_ids
    match from_active with
    | some result => result
    | none =>
      (select_within r
        (parent_data.templates.filterMap (fun kv =>
          if kv.2.isActive == some true then
            some (enrich_scan kv.1 kv.2 parent_data placement_id)
          else none))
        vars eligible_template_ids).getD none

/-- Result of `get_placement_config` (src/copylab.py lines 551-586). -/
structure PlacementConfig where
  id : String
  name : String
  varNames : List String
  defaults : List (String × Value)
  default_data : List (String × DVal)
  templateFilters : List FilterRule
  activeTemplateId : Option String
deriving DecidableEq, Repr

/-- Embedding of `get_placement_config`. -/
def get_placement_config (store : Store) (placement_id : String) : Option PlacementConfig :=
  match pyGet store.placements placement_id with
  | none => none
  | some d =>
    some { id := placement_id,
           name := d.name.getD placement_id,
           varNames := d.varNames,
           defaults := d.previewDefaults,
           default_data := d.defaultData,
           templateFilters := d.templateFilters,
           activeTemplateId := d.activeTemplateId }

/-- The template-selection prefix of `generate_notification`
(src/copylab.py lines 709-718), extracted as a helper: fetch the placement
config, compute the eligible-ID set when the config has filter rules
(`if placement_config and placement_config.get('templateFilters')`), and
fetch a random template. -/
def selected_template (store : Store) (r : Nat) (placement_id : String)
    (vars : List (String × Value)) : Option RTemplate :=
  let eligible_template_ids : Option (Finset String) :=
    match get_placement_config store placement_id with
    | some config =>
      if config.templateFilters.isEmpty then none
      else apply_template_filters config.templateFilters vars
    | none => none
  get_random_template store r placement_id vars eligible_template_ids

/-- The four attribution writes shared by both branches of
`generate_notification` (src/copylab.py lines 754-757 and 785-788). -/
def attach_attribution (d : List (String × DVal)) (placement_id placement_name
    template_id template_name : String) : List (String × DVal) :=
  pySet (pySet (pySet (pySet d
    "copylab_placement_id" (DVal.str placement_id))
    "copylab_placement_name" (DVal.str placement_name))
    "copylab_template_id" (DVal.str template_id))
    "copylab_template_name" (DVal.str template_name)

/-- Result record of `generate_notification`; `error := none` stands for
the absent `error` key of the primary entry point, the safe variant sets
it on failure. -/
structure NotifResult where
  title : String
  message : String
  data : List (String × DVal)
  template_used : Bool
  template_name : Option String
  error : Option String
deriving DecidableEq, Repr

/-- Embedding of `generate_notification` (src/copylab.py lines 672-796)
over the store model, with the random oracle `r`.  `fallback_title or ''`
is modelled by `Option.getD ""` (Python's falsy `""` and `None` coincide
on the result).  The `variables = variables or \x7b\x7d` and
`data = data or \x7b\x7d` normalizations are performed by the caller of
the embedding (an absent mapping is the empty list). -/
def generate_notification (store : Store) (r : Nat) (placement_id : String)
    (vars : List (String × Value)) (data : List (String × DVal))
    (fallback_title fallback_message : Option String) (max_length : Option Int) :
    NotifResult :=
  match selected_template store r placement_id vars with
  | some template =>
    let template_data :=
      match template.data with
      | some d => if d.isEmpty then template.placement_data else d
      | none => template.placement_data
    let processed := process_notification_content
      (template.title_template.getD "") (template.body_template.getD "")
      (pyUpdate template_data data) vars template.placement_defaults max_length
    { title := processed.title,
      message := processed.message,
      data := attach_attribution processed.data placement_id template.placement_name
        template.id (template.name.getD "Unknown"),
      template_used := true,
      template_name := some (template.name.getD "Unknown"),
      error := none }
  | none =>
    let placement_config := get_placement_config store placement_id
    let defaults := match placement_config with
      | some c => c.defaults
      | none => []
    let processed := process_notification_content
      (fallback_title.getD "") (fallback_message.getD "") data vars defaults max_length
    { title := processed.title,
      message := processed.message,
      data := attach_attribution processed.data placement_id
        (match placement_config with | some c => c.name | none => placement_id)
        "fallback" "Fallback",
      template_used := false,
      template_name := none,
      error := none }

/-- Outcome of attempting the wrapped `generate_notification` call inside
`generate_notification_safe`.  The embedding itself is a total function,
so a Python exception escaping `generate_notification` (possible only for
documents or arguments outside this model's types, e.g. a non-dict `data`
field) is modelled by an explicit exceptional outcome `exn`. -/
def generate_notification_attempt (store : Store) (r : Nat) (placement_id : String)
    (vars : List (String × Value)) (data : List (String × DVal))
    (fallback_title fallback_message : Option String) (exn : Option String) :
    Except String NotifResult :=
  match exn with
  | some e => Except.error e
  | none => Except.ok (generate_notification store r placement_id vars data
      fallback_title fallback_message (some 200))

/-- Embedding of `generate_notification_safe` (src/copylab.py lines
799-827): the `try/except Exception` is a total match on the attempt's
outcome; the handler returns the fallback record with the caller's data
(`data or \x7b\x7d`) and an `error` field. -/
def generate_notification_safe (store : Store) (r : Nat) (placement_id : String)
    (vars : List (String × Value)) (data : Option (List (String × DVal)))
    (fallback_title fallback_message : String) (exn : Option String) : NotifResult :=
  match generate_notification_attempt store r placement_id vars (data.getD [])
      (some fallback_title) (some fallback_message) exn with
  | Except.ok result => result
  | Except.error e =>
    { title := fallback_title,
      message := fallback_message,
      data := data.getD [],
      template_used := false,
      template_name := none,
      error := some e }

theorem pyGet_pySet_self (l : List (String × α)) (k : String) (v : α) :
    pyGet (pySet l k v) k = some v := by
  induction l with
  | nil => simp [pySet, pyGet, List.find?]
  | cons kv rest ih =>
    unfold pySet
    by_cases h : kv.1 = k
    · simp [h, pyGet, List.find?]
    · simp only [h, if_false, if_neg h, pyGet, List.find?]
      have hb : (kv.1 == k) = false := by simpa using h
      rw [hb]
      exact ih

theorem pyGet_pySet_other (l : List (String × α)) (k k' : String) (v : α) (h : k ≠ k') :
    pyGet (pySet l k' v) k = pyGet l k := by
  induction l with
  | nil =>
    simp only [pySet, pyGet, List.find?]
    have hb : (k' == k) = false := by simpa using fun he => h he.symm
    rw [hb]
  | cons kv rest ih =>
    unfold pySet
    by_cases hh : kv.1 = k'
    · simp only [if_pos hh, pyGet, List.find?]
      have hb : (k' == k) = false := by simpa using fun he => h he.symm
      have hb2 : (kv.1 == k) = false := by simp [hh]; exact fun he => h he.symm
      rw [hb, hb2]
    · simp only [if_neg hh, pyGet, List.find?]
      cases hc : (kv.1 == k)
      · simp only []
        exact ih
      · rfl

theorem attach_tid (d : List (String × DVal)) (p pn t tn : String) :
    pyGet (attach_attribution d p pn t tn) "copylab_template_id" = some (DVal.str t) := by
  unfold attach_attribution
  rw [pyGet_pySet_other _ _ _ _ (by decide), pyGet_pySet_self]

theorem attach_tname (d : List (String × DVal)) (p pn t tn : String) :
    pyGet (attach_attribution d p pn t tn) "copylab_template_name" = some (DVal.str tn) := by
  unfold attach_attribution
  rw [pyGet_pySet_self]

theorem attach_pid (d : List (String × DVal)) (p pn t tn : String) :
    pyGet (attach_attribution d p pn t tn) "copylab_placement_id" = some (DVal.str p) := by
  unfold attach_attribution
  rw [pyGet_pySet_other _ _ _ _ (by decide), pyGet_pySet_other _ _ _ _ (by decide),
    pyGet_pySet_other _ _ _ _ (by decide), pyGet_pySet_self]

theorem attach_pname (d : List (String × DVal)) (p pn t tn : String) :
    pyGet (attach_attribution d p pn t tn) "copylab_placement_name" = some (DVal.str pn) := by
  unfold attach_attribution
  rw [pyGet_pySet_other _ _ _ _ (by decide), pyGet_pySet_other _ _ _ _ (by decide),
    pyGet_pySet_self]

/-- C1: whenever a real template is selected, the returned `data` carries
the attribution of the selected template and placement — template id,
template name, placement id and placement name — regardless of the
caller-supplied `data` (universally quantified here) and of any templated
data values, because the attribution keys are written after
substitution. -/
theorem attribution_non_override (store : Store) (r : Nat) (placement_id : String)
    (vars : List (String × Value)) (data : List (String × DVal))
    (fallback_title fallback_message : Option String) (max_length : Option Int)
    (template : RTemplate)
    (hsel : selected_template store r placement_id vars = some template) :
    pyGet (generate_notification store r placement_id vars data fallback_title
        fallback_message max_length).data "copylab_template_id" =
      some (DVal.str template.id)
    ∧ pyGet (generate_notification store r placement_id vars data fallback_title
        fallback_message max_length).data "copylab_template_name" =
      some (DVal.str (template.name.getD "Unknown"))
    ∧ pyGet (generate_notification store r placement_id vars data fallback_title
        fallback_message max_length).data "copylab_placement_id" =
      some (DVal.str placement_id)
    ∧ pyGet (generate_notification store r placement_id vars data fallback_title
        fallback_message max_length).data "copylab_placement_name" =
      some (DVal.str template.placement_name) := by
  simp only [generate_notification, hsel]
  exact ⟨attach_tid _ _ _ _ _, attach_tname _ _ _ _ _, attach_pid _ _ _ _ _,
    attach_pname _ _ _ _ _⟩

/-- C2 counterexample: the claim as stated omits the `max_length`
truncation of the fallback message.  With no store entry for the
placement, `fallback_message = "abcdefgh"` and `max_length = 4`, the
result's `message` is `"a..."`, not the rendered fallback string
`apply_template "abcdefgh" [] [] = "abcdefgh"`. -/
theorem fallback_claim_counterexample :
    ¬ ((generate_notification ⟨[]⟩ 0 "missing_placement" [] [] none (some "abcdefgh")
        (some 4)).message = apply_template "abcdefgh" [] [])
    ∧ (generate_notification ⟨[]⟩ 0 "missing_placement" [] [] none (some "abcdefgh")
        (some 4)).message = "a..."
    ∧ apply_template "abcdefgh" [] [] = "abcdefgh" := by
  refine ⟨by decide, by decide, by decide⟩

/-- C2 (amended: the fallback message equals the rendered fallback string
after the `max_length` truncation step, hence unchanged exactly when its
rendered length fits; the claim's other conjuncts are unchanged): when no
template is selected (no store entry for the placement, or no eligible
template at any stage), the result has `template_used = false`,
`template_name = none`, `title` equal to the caller's fallback title
(empty string when omitted) rendered against the placement defaults, the
truncated rendered fallback message, and attribution
`copylab_template_id = "fallback"`, `copylab_template_name =
"Fallback"`. -/
theorem end_to_end_fallback (store : Store) (r : Nat) (placement_id : String)
    (vars : List (String × Value)) (data : List (String × DVal))
    (fallback_title fallback_message : Option String) (max_length : Option Int)
    (hsel : selected_template store r placement_id vars = none) :
    (generate_notification store r placement_id vars data fallback_title
        fallback_message max_length).template_used = false
    ∧ (generate_notification store r placement_id vars data fallback_title
        fallback_message max_length).template_name = none
    ∧ (generate_notification store r placement_id vars data fallback_title
        fallback_message max_length).title =
      apply_template (fallback_title.getD "") vars
        ((get_placement_config store placement_id).map (fun c => c.defaults) |>.getD [])
    ∧ (generate_notification store r placement_id vars data fallback_title
        fallback_message max_length).message =
      truncate_message
        (apply_template (fallback_message.getD "") vars
          ((get_placement_config store placement_id).map (fun c => c.defaults) |>.getD []))
        max_length
    ∧ pyGet (generate_notification store r placement_id vars data fallback_title
        fallback_message max_length).data "copylab_template_id" = some (DVal.str "fallback")
    ∧ pyGet (generate_notification store r placement_id vars data fallback_title
        fallback_message max_length).data "copylab_template_name" = some (DVal.str "Fallback") := by
  refine ⟨?_, ?_, ?_, ?_, ?_, ?_⟩
  · simp [generate_notification, hsel]
  · simp [generate_notification, hsel]
  · simp only [generate_notification, hsel]
    cases h : get_placement_config store placement_id <;>
      simp [h, process_notification_content]
  · simp only [generate_notification, hsel]
    cases h : get_placement_config store placement_id <;>
      simp [h, process_notification_content]
  · simp only [generate_notification, hsel]
    exact attach_tid _ _ _ _ _
  · simp only [generate_notification, hsel]
    exact attach_tname _ _ _ _ _

/-- C3: the safe entry point is a total function of the attempt outcome
(the embedding of `try/except Exception` is a total match, so it returns a
result for every input); when the wrapped call raises, the result is
exactly the fallback record — `title` / `message` are the fallback
strings, `data` is the caller-supplied mapping (empty when omitted),
`template_used = false`, `template_name = none`, and an `error` field
carries the failure description; when it does not raise, the result is
`generate_notification`'s result, passed through unchanged. -/
theorem safe_never_raises (store : Store) (r : Nat) (placement_id : String)
    (vars : List (String × Value)) (data : Option (List (String × DVal)))
    (fallback_title fallback_message : String) (exn : Option String) :
    (∀ e, exn = some e →
      generate_notification_safe store r placement_id vars data fallback_title
          fallback_message exn =
        { title := fallback_title, message := fallback_message, data := data.getD [],
          template_used := false, template_name := none, error := some e })
    ∧ (exn = none →
      generate_notification_safe store r placement_id vars data fallback_title
          fallback_message exn =
        generate_notification store r placement_id vars (data.getD [])
          (some fallback_title) (some fallback_message) (some 200)) := by
  constructor
  · intro e he
    subst he
    rfl
  · intro he
    subst he
    rfl

/-- Payload base of the `template_used = true` branch, written from the
claim: the selected template's own `data` when present and non-empty,
otherwise the placement's `default_data`. -/
def template_branch_base (template : RTemplate) : List (String × DVal) :=
  match template.data with
  | some d => if d = [] then template.placement_data else d
  | none => template.placement_data

/-- Keys of an association list. -/
def dictKeys (l : List (String × α)) : List String := l.map (fun kv => kv.1)

theorem pyGet_pyUpdate_not_mem (base upd : List (String × α)) (k : String)
    (h : ¬ k ∈ dictKeys upd) :
    pyGet (pyUpdate base upd) k = pyGet base k := by
  induction upd generalizing base with
  | nil => rfl
  | cons kv rest ih =>
    have h1 : kv.1 ≠ k := fun he => h (by simp [dictKeys, he])
    have h2 : ¬ k ∈ dictKeys rest := fun hm => h (by
      simp only [dictKeys, List.map, List.mem_cons]
      right
      simpa [dictKeys] using hm)
    show pyGet (pyUpdate (pySet base kv.1 kv.2) rest) k = pyGet base k
    rw [ih _ h2]
    exact pyGet_pySet_other _ _ _ _ (fun he => h1 he.symm)

theorem pyGet_pyUpdate_mem (base upd : List (String × α)) (k : String) (v : α)
    (hnd : (dictKeys upd).Nodup) (h : pyGet upd k = some v) :
    pyGet (pyUpdate base upd) k = some v := by
  induction upd generalizing base with
  | nil => simp [pyGet, List.find?] at h
  | cons kv rest ih =>
    have hnd' : ¬ kv.1 ∈ dictKeys rest ∧ (dictKeys rest).Nodup := by
      simpa [dictKeys, List.nodup_cons] using hnd
    simp only [pyGet, List.find?] at h
    show pyGet (pyUpdate (pySet base kv.1 kv.2) rest) k = some v
    cases hc : (kv.1 == k) with
    | true =>
      rw [hc] at h
      have hk : kv.1 = k := by simpa using hc
      have hnm : ¬ k ∈ dictKeys rest := hk ▸ hnd'.1
      rw [pyGet_pyUpdate_not_mem _ _ _ hnm, hk, pyGet_pySet_self]
      simpa using h
    | false =>
      rw [hc] at h
      exact ih _ hnd'.2 h

/-- C9: in the `template_used = true` branch the payload is built from the
claim's base — the template's own `data` when present and non-empty
(an empty mapping counting as absent), otherwise the placement's
`default_data` — overlaid with the caller-supplied `data`, all rendered,
with attribution attached after; and on any key conflict the
caller-supplied value wins in the merged mapping (for caller mappings
with distinct keys, as Python dicts have). -/
theorem payload_merge_precedence (store : Store) (r : Nat) (placement_id : String)
    (vars : List (String × Value)) (data : List (String × DVal))
    (fallback_title fallback_message : Option String) (max_length : Option Int)
    (template : RTemplate)
    (hsel : selected_template store r placement_id vars = some template) :
    (generate_notification store r placement_id vars data fallback_title
        fallback_message max_length).data =
      attach_attribution
        (process_data (pyUpdate (template_branch_base template) data) vars
          template.placement_defaults)
        placement_id template.placement_name template.id (template.name.getD "Unknown")
    ∧ (∀ k v, (dictKeys data).Nodup → pyGet data k = some v →
        pyGet (pyUpdate (template_branch_base template) data) k = some v) := by
  constructor
  · simp only [generate_notification, hsel, process_notification_content]
    have hbase : (match template.data with
        | some d => if d.isEmpty then template.placement_data else d
        | none => template.placement_data) = template_branch_base template := by
      unfold template_branch_base
      cases template.data with
      | none => rfl
      | some d => cases d <;> rfl
    rw [hbase]
  · intro k v hnd h
    exact pyGet_pyUpdate_mem _ _ _ _ hnd h

/-- Heap of payload dictionaries, for the frame-condition claim: a cell
per live Python dict of `data`-payload type, addressed by index.  The
read-only inputs (variables, conditions, filter rules) are embedded by
value elsewhere because the source only reads them; the heap model covers
the one caller-visible object family the source writes near: `data`
payload dicts. -/
structure Heap where
  cells : List (List (String × DVal))
deriving DecidableEq, Repr

/-- Dereference a dict reference. -/
def Heap.read (h : Heap) (ref : Nat) : List (String × DVal) := (h.cells[ref]?).getD []

/-- Overwrite the dict behind a reference (out-of-range writes are no-ops;
all writes below target allocated cells). -/
def Heap.write (h : Heap) (ref : Nat) (d : List (String × DVal)) : Heap :=
  ⟨h.cells.set ref d⟩

/-- The reference a fresh allocation on `h` receives. -/
def Heap.allocRef (h : Heap) : Nat := h.cells.length

/-- Allocate a fresh dict (Python `\x7b\x7d` or `.copy()`) with contents
`d`; the new cell is addressed by `h.allocRef`. -/
def Heap.allocWith (h : Heap) (d : List (String × DVal)) : Heap :=
  ⟨h.cells ++ [d]⟩

/-- A dict item-assignment `heap[ref][k] = v`. -/
def Heap.setItem (h : Heap) (ref : Nat) (k : String) (v : DVal) : Heap :=
  h.write ref (pySet (h.read ref) k v)

/-- Result of the heap-level `_process_notification_content`: the
processed title and message plus the reference of the freshly built
`processed_data` dict. -/
structure ProcessedH where
  title : String
  message : String
  data_ref : Nat
deriving DecidableEq, Repr

/-- Heap-level embedding of `_process_notification_content`: render title
and message, allocate the fresh `processed_data = \x7b\x7d`, then write one
processed entry per item of the input dict. -/
def process_notification_content_H (h : Heap) (title message : String) (data_ref : Nat)
    (vars defaults : List (String × Value)) (max_length : Option Int) : Heap × ProcessedH :=
  let processed_title := apply_template title vars defaults
  let processed_message := truncate_message (apply_template message vars defaults) max_length
  let h2 := (h.read data_ref).foldl
    (fun hh kv => hh.setItem h.allocRef kv.1 (process_data_value kv.2 vars defaults))
    (h.allocWith [])
  (h2, ⟨processed_title, processed_message, h.allocRef⟩)

/-- The four attribution item-assignments, heap level. -/
def attach_attribution_H (h : Heap) (ref : Nat) (placement_id placement_name
    template_id template_name : String) : Heap :=
  ((((h.setItem ref "copylab_placement_id" (DVal.str placement_id)).setItem
    ref "copylab_placement_name" (DVal.str placement_name)).setItem
    ref "copylab_template_id" (DVal.str template_id)).setItem
    ref "copylab_template_name" (DVal.str template_name))

/-- Heap-level result of `generate_notification`: the returned `data` is a
dict reference. -/
structure NotifResultH where
  title : String
  message : String
  data_ref : Nat
  template_used : Bool
  template_name : Option String
deriving DecidableEq, Repr

/-- Heap-level embedding of `generate_notification`, making every dict
allocation and write of the source explicit: in the template branch,
`merged_data = template_data.copy()` allocates, `merged_data.update(data)`
writes the caller's items into the fresh copy, the processing helper
builds a fresh `processed_data`, and the attribution keys are written into
that fresh dict; the fallback branch passes the caller's dict reference to
the processing helper, which only reads it.  Value-level computation is
shared with the pure embedding. -/
def generate_notification_H (store : Store) (r : Nat) (placement_id : String)
    (vars : List (String × Value)) (h : Heap) (data_ref : Nat)
    (fallback_title fallback_message : Option String) (max_length : Option Int) :
    Heap × NotifResultH :=
  match selected_template store r placement_id vars with
  | some template =>
    let template_data :=
      match template.data with
      | some d => if d.isEmpty then template.placement_data else d
      | none => template.placement_data
    let h2 := (h.read data_ref).foldl
      (fun hh kv => hh.setItem h.allocRef kv.1 kv.2) (h.allocWith template_data)
    let step := process_notification_content_H h2 (template.title_template.getD "")
      (template.body_template.getD "") h.allocRef vars template.placement_defaults max_length
    let h4 := attach_attribution_H step.1 step.2.data_ref placement_id
      template.placement_name template.id (template.name.getD "Unknown")
    (h4, ⟨step.2.title, step.2.message, step.2.data_ref, true,
      some (template.name.getD "Unknown")⟩)
  | none =>
    let placement_config := get_placement_config store placement_id
    let defaults := match placement_config with
      | some c => c.defaults
      | none => []
    let step := process_notification_content_H h (fallback_title.getD "")
      (fallback_message.getD "") data_ref vars defaults max_length
    let h2 := attach_attribution_H step.1 step.2.data_ref placement_id
      (match placement_config with | some c => c.name | none => placement_id)
      "fallback" "Fallback"
    (h2, ⟨step.2.title, step.2.message, step.2.data_ref, false, none⟩)

theorem Heap.read_write_ne (h : Heap) (ref tgt : Nat) (d : List (String × DVal))
    (hne : ref ≠ tgt) : (h.write tgt d).read ref = h.read ref := by
  unfold Heap.read Heap.write
  rw [List.getElem?_set_ne (fun he => hne he.symm)]

theorem Heap.length_write (h : Heap) (tgt : Nat) (d : List (String × DVal)) :
    (h.write tgt d).cells.length = h.cells.length := by
  unfold Heap.write
  simp

theorem Heap.read_allocWith_lt (h : Heap) (d : List (String × DVal)) (ref : Nat)
    (hlt : ref < h.cells.length) : (h.allocWith d).read ref = h.read ref := by
  show (h.cells ++ [d])[ref]?.getD [] = h.cells[ref]?.getD []
  rw [List.getElem?_append, if_pos hlt]

theorem Heap.length_allocWith (h : Heap) (d : List (String × DVal)) :
    (h.allocWith d).cells.length = h.cells.length + 1 := by
  show (h.cells ++ [d]).length = h.cells.length + 1
  simp

theorem foldl_setItem_read (items : List (String × DVal)) (g : Heap → String × DVal → DVal)
    (h0 : Heap) (tgt ref : Nat) (hne : ref ≠ tgt) :
    (items.foldl (fun hh kv => hh.setItem tgt kv.1 (g hh kv)) h0).read ref = h0.read ref := by
  induction items generalizing h0 with
  | nil => rfl
  | cons kv rest ih =>
    simp only [List.foldl]
    rw [ih]
    exact Heap.read_write_ne _ _ _ _ hne

theorem foldl_setItem_length (items : List (String × DVal)) (g : Heap → String × DVal → DVal)
    (h0 : Heap) (tgt : Nat) :
    (items.foldl (fun hh kv => hh.setItem tgt kv.1 (g hh kv)) h0).cells.length =
      h0.cells.length := by
  induction items generalizing h0 with
  | nil => rfl
  | cons kv rest ih =>
    simp only [List.foldl]
    rw [ih]
    exact Heap.length_write _ _ _

theorem attach_attribution_H_read (h : Heap) (tgt ref : Nat) (p pn t tn : String)
    (hne : ref ≠ tgt) : (attach_attribution_H h tgt p pn t tn).read ref = h.read ref := by
  unfold attach_attribution_H Heap.setItem
  rw [Heap.read_write_ne _ _ _ _ hne, Heap.read_write_ne _ _ _ _ hne,
    Heap.read_write_ne _ _ _ _ hne, Heap.read_write_ne _ _ _ _ hne]

theorem process_H_frame (h : Heap) (title message : String) (data_ref : Nat)
    (vars defaults : List (String × Value)) (max_length : Option Int) (ref : Nat)
    (hlt : ref < h.cells.length) :
    (process_notification_content_H h title message data_ref vars defaults
        max_length).1.read ref = h.read ref
    ∧ (process_notification_content_H h title message data_ref vars defaults
        max_length).2.data_ref = h.cells.length
    ∧ (process_notification_content_H h title message data_ref vars defaults
        max_length).1.cells.length = h.cells.length + 1 := by
  refine ⟨?_, rfl, ?_⟩
  · show ((h.read data_ref).foldl
        (fun hh kv => hh.setItem h.allocRef kv.1 (process_data_value kv.2 vars defaults))
        (h.allocWith [])).read ref = h.read ref
    rw [foldl_setItem_read _ (fun _ kv => process_data_value kv.2 vars defaults) _ _ _
      (show ref ≠ h.allocRef by unfold Heap.allocRef; omega)]
    exact Heap.read_allocWith_lt _ _ _ hlt
  · show ((h.read data_ref).foldl
        (fun hh kv => hh.setItem h.allocRef kv.1 (process_data_value kv.2 vars defaults))
        (h.allocWith [])).cells.length = h.cells.length + 1
    rw [foldl_setItem_length _ (fun _ kv => process_data_value kv.2 vars defaults)]
    exact Heap.length_allocWith _ _

theorem merged_fold_frame (h : Heap) (td : List (String × DVal)) (data_ref ref : Nat)
    (hlt : ref < h.cells.length) :
    ((h.read data_ref).foldl (fun hh kv => hh.setItem h.allocRef kv.1 kv.2)
        (h.allocWith td)).read ref = h.read ref
    ∧ ((h.read data_ref).foldl (fun hh kv => hh.setItem h.allocRef kv.1 kv.2)
        (h.allocWith td)).cells.length = h.cells.length + 1 := by
  constructor
  · rw [foldl_setItem_read _ (fun _ kv => kv.2) _ _ _
      (show ref ≠ h.allocRef by unfold Heap.allocRef; omega)]
    exact Heap.read_allocWith_lt _ _ _ hlt
  · rw [foldl_setItem_length _ (fun _ kv => kv.2)]
    exact Heap.length_allocWith _ _

/-- C10 (frame condition): the heap-level embedding of
`generate_notification` never mutates the caller's `data` dict — the cell
behind the caller's reference is unchanged by the call — and the result's
`data` is a freshly allocated dict (its reference lies outside the
caller's pre-call heap), so the attribution and template-data keys are
written into fresh mappings only.  The remaining caller inputs of the
claim (variables, condition objects, filter rules) are embedded by value
since the source only ever reads them. -/
theorem caller_data_not_mutated (store : Store) (r : Nat) (placement_id : String)
    (vars : List (String × Value)) (h : Heap) (data_ref : Nat)
    (fallback_title fallback_message : Option String) (max_length : Option Int)
    (hlt : data_ref < h.cells.length) :
    (generate_notification_H store r placement_id vars h data_ref fallback_title
        fallback_message max_length).1.read data_ref = h.read data_ref
    ∧ ¬ ((generate_notification_H store r placement_id vars h data_ref fallback_title
        fallback_message max_length).2.data_ref < h.cells.length) := by
  unfold generate_notification_H
  cases hsel : selected_template store r placement_id vars with
  | some template =>
    simp only []
    have hmf := merged_fold_frame h
      (match template.data with
        | some d => if d.isEmpty then template.placement_data else d
        | none => template.placement_data) data_ref data_ref hlt
    have hpf := process_H_frame
      ((h.read data_ref).foldl (fun hh kv => hh.setItem h.allocRef kv.1 kv.2)
        (h.allocWith (match template.data with
          | some d => if d.isEmpty then template.placement_data else d
          | none => template.placement_data)))
      (template.title_template.getD "") (template.body_template.getD "")
      h.allocRef vars template.placement_defaults max_length data_ref
      (by rw [hmf.2]; omega)
    constructor
    · rw [attach_attribution_H_read _ _ _ _ _ _ _ (by rw [hpf.2.1, hmf.2]; omega)]
      rw [hpf.1, hmf.1]
    · rw [hpf.2.1, hmf.2]
      omega
  | none =>
    simp only []
    have hpf := process_H_frame h (fallback_title.getD "") (fallback_message.getD "")
      data_ref vars (match get_placement_config store placement_id with
        | some c => c.defaults
        | none => []) max_length data_ref hlt
    constructor
    · rw [attach_attribution_H_read _ _ _ _ _ _ _ (by rw [hpf.2.1]; omega)]
      exact hpf.1
    · rw [hpf.2.1]
      omega

/-- Concrete store for the C1 witness: one placement `"p"` with one
active template `"t1"`. -/
def c1Store : Store :=
  ⟨[("p",
    { name := some "Place",
      varNames := [],
      previewDefaults := [],
      defaultData := [("dd", DVal.str "pd")],
      templateFilters := [],
      activeTemplateId := none,
      activeTemplateIds := ["t1"],
      templates := [("t1",
        { id := none,
          name := some "Temp",
          title_template := some "Hi",
          body_template := some "Body",
          data := some [("k", DVal.str "tv")],
          conditions := [],
          weight := some 2,
          isActive := some true })] })]⟩

/-- The enriched template the C1 store selects. -/
def c1Template : RTemplate :=
  { id := "t1",
    name := some "Temp",
    title_template := some "Hi",
    body_template := some "Body",
    data := some [("k", DVal.str "tv")],
    conditions := [],
    weight := some 2,
    placement_id := "p",
    placement_name := "Place",
    placement_defaults := [],
    placement_data := [("dd", DVal.str "pd")] }

/-- Witness for C1 at a concrete store, with the caller attempting to
override `copylab_template_id` via `data`. -/
theorem attribution_non_override_witness :
    selected_template c1Store 0 "p" [] = some c1Template
    ∧ (pyGet (generate_notification c1Store 0 "p" []
        [("copylab_template_id", DVal.str "hacked")] none none (some 200)).data
        "copylab_template_id" = some (DVal.str c1Template.id)
      ∧ pyGet (generate_notification c1Store 0 "p" []
          [("copylab_template_id", DVal.str "hacked")] none none (some 200)).data
          "copylab_template_name" = some (DVal.str (c1Template.name.getD "Unknown"))
      ∧ pyGet (generate_notification c1Store 0 "p" []
          [("copylab_template_id", DVal.str "hacked")] none none (some 200)).data
          "copylab_placement_id" = some (DVal.str "p")
      ∧ pyGet (generate_notification c1Store 0 "p" []
          [("copylab_template_id", DVal.str "hacked")] none none (some 200)).data
          "copylab_placement_name" = some (DVal.str c1Template.placement_name)) :=
  ⟨by decide,
   attribution_non_override c1Store 0 "p" [] [("copylab_template_id", DVal.str "hacked")]
     none none (some 200) c1Template (by decide)⟩

/-- Witness for C2 (amended) at a store with no entry for the requested
placement. -/
theorem end_to_end_fallback_witness :
    selected_template ⟨[]⟩ 0 "missing_placement" [] = none
    ∧ ((generate_notification ⟨[]⟩ 0 "missing_placement" [] [] none (some "Hello")
        (some 200)).template_used = false
      ∧ (generate_notification ⟨[]⟩ 0 "missing_placement" [] [] none (some "Hello")
          (some 200)).template_name = none
      ∧ (generate_notification ⟨[]⟩ 0 "missing_placement" [] [] none (some "Hello")
          (some 200)).title =
        apply_template ((none : Option String).getD "") []
          ((get_placement_config ⟨[]⟩ "missing_placement").map (fun c => c.defaults) |>.getD [])
      ∧ (generate_notification ⟨[]⟩ 0 "missing_placement" [] [] none (some "Hello")
          (some 200)).message =
        truncate_message
          (apply_template ((some "Hello").getD "") []
            ((get_placement_config ⟨[]⟩ "missing_placement").map (fun c => c.defaults)
              |>.getD []))
          (some 200)
      ∧ pyGet (generate_notification ⟨[]⟩ 0 "missing_placement" [] [] none (some "Hello")
          (some 200)).data "copylab_template_id" = some (DVal.str "fallback")
      ∧ pyGet (generate_notification ⟨[]⟩ 0 "missing_placement" [] [] none (some "Hello")
          (some 200)).data "copylab_template_name" = some (DVal.str "Fallback")) :=
  ⟨by decide,
   end_to_end_fallback ⟨[]⟩ 0 "missing_placement" [] [] none (some "Hello") (some 200)
     (by decide)⟩

/-- Witness for C3: a raised exception (modelled outcome `some "boom"`)
yields the fallback record with the caller's data and an `error` field,
and the non-raising outcome passes `generate_notification`'s result
through. -/
theorem safe_never_raises_witness :
    generate_notification_safe ⟨[]⟩ 0 "p" [] (some [("k", DVal.raw 0)]) "T" "M"
        (some "boom") =
      { title := "T", message := "M", data := [("k", DVal.raw 0)],
        template_used := false, template_name := none, error := some "boom" }
    ∧ generate_notification_safe ⟨[]⟩ 0 "p" [] (some [("k", DVal.raw 0)]) "T" "M" none =
      generate_notification ⟨[]⟩ 0 "p" [] ((some [("k", DVal.raw 0)]).getD [])
        (some "T") (some "M") (some 200) :=
  ⟨(safe_never_raises ⟨[]⟩ 0 "p" [] (some [("k", DVal.raw 0)]) "T" "M" (some "boom")).1
      "boom" rfl,
   (safe_never_raises ⟨[]⟩ 0 "p" [] (some [("k", DVal.raw 0)]) "T" "M" none).2 rfl⟩

/-- Minimal template used by the C6 witness. -/
def c6T (id : String) (w : Int) : RTemplate :=
  { id := id, name := none, title_template := none, body_template := none,
    data := none, conditions := [], weight := some w, placement_id := "p",
    placement_name := "p", placement_defaults := [], placement_data := [] }

/-- Witness for C6 at the claim's `[0, 10, 0]` weight vector: the
selection (here at oracle value 7) yields a template of positive weight,
i.e. the single weight-10 template. -/
theorem weighted_selector_support_witness :
    ([c6T "a" 0, c6T "b" 10, c6T "c" 0] ≠ [])
    ∧ (∀ t ∈ [c6T "a" 0, c6T "b" 10, c6T "c" 0], 0 ≤ template_weight t)
    ∧ (∃ t ∈ [c6T "a" 0, c6T "b" 10, c6T "c" 0], 0 < template_weight t)
    ∧ ∃ u, weighted_random_choice 7 [c6T "a" 0, c6T "b" 10, c6T "c" 0] = some u
        ∧ u ∈ [c6T "a" 0, c6T "b" 10, c6T "c" 0] ∧ 0 < template_weight u :=
  ⟨by decide, by decide, by decide,
   (weighted_selector_support 7 [c6T "a" 0, c6T "b" 10, c6T "c" 0]).2.1
     (by decide) (by decide) (by decide)⟩

/-- Witness for C8 (amended) at `max_length = 5` and a rendered message of
length 10. -/
theorem truncation_amended_witness :
    ((3 : Int) ≤ 5)
    ∧ ((((apply_template "abcdefghij" [] []).data.length : Int) > 5 →
        (process_notification_content "" "abcdefghij" [("n", DVal.raw 1)] [] []
            (some 5)).message =
          String.mk ((apply_template "abcdefghij" [] []).data.take ((5 : Int) - 3).toNat)
            ++ "..." ∧
        (((process_notification_content "" "abcdefghij" [("n", DVal.raw 1)] [] []
            (some 5)).message.data.length : Int) = 5))
      ∧ (((apply_template "abcdefghij" [] []).data.length : Int) ≤ 5 →
        (process_notification_content "" "abcdefghij" [("n", DVal.raw 1)] [] []
            (some 5)).message = apply_template "abcdefghij" [] [])
      ∧ (∀ k n, pyGet [("n", DVal.raw 1)] k = some (DVal.raw n) →
        pyGet (process_notification_content "" "abcdefghij" [("n", DVal.raw 1)] [] []
            (some 5)).data k = some (DVal.raw n))) :=
  ⟨by decide,
   truncation_amended "" "abcdefghij" [("n", DVal.raw 1)] [] [] 5 (by decide)⟩

/-- Concrete store for the C9 witness: the selected template carries its
own non-empty `data` with key `"k"`, which the caller's `data` also
sets. -/
def c9Store : Store :=
  ⟨[("q",
    { name := none,
      varNames := [],
      previewDefaults := [],
      defaultData := [("dd", DVal.str "pd")],
      templateFilters := [],
      activeTemplateId := none,
      activeTemplateIds := [],
      templates := [("t9",
        { id := none,
          name := some "Nine",
          title_template := some "T",
          body_template := some "B",
          data := some [("k", DVal.str "T-val"), ("only_tpl", DVal.str "x")],
          conditions := [],
          weight := none,
          isActive := some true })] })]⟩

/-- The enriched template the C9 store selects (via the full-scan path,
since `activeTemplateIds` is empty). -/
def c9Template : RTemplate :=
  { id := "t9",
    name := some "Nine",
    title_template := some "T",
    body_template := some "B",
    data := some [("k", DVal.str "T-val"), ("only_tpl", DVal.str "x")],
    conditions := [],
    weight := none,
    placement_id := "q",
    placement_name := "q",
    placement_defaults := [],
    placement_data := [("dd", DVal.str "pd")] }

/-- Witness for C9 at a concrete store, with a caller `data` whose key
`"k"` conflicts with the template's own data. -/
theorem payload_merge_precedence_witness :
    selected_template c9Store 0 "q" [] = some c9Template
    ∧ ((generate_notification c9Store 0 "q" [] [("k", DVal.str "C-val")] none none
        (some 200)).data =
      attach_attribution
        (process_data (pyUpdate (template_branch_base c9Template) [("k", DVal.str "C-val")])
          [] c9Template.placement_defaults)
        "q" c9Template.placement_name c9Template.id (c9Template.name.getD "Unknown")
      ∧ (∀ k v, (dictKeys [("k", DVal.str "C-val")]).Nodup →
          pyGet [("k", DVal.str "C-val")] k = some v →
          pyGet (pyUpdate (template_branch_base c9Template) [("k", DVal.str "C-val")]) k =
            some v)) :=
  ⟨by decide,
   payload_merge_precedence c9Store 0 "q" [] [("k", DVal.str "C-val")] none none (some 200)
     c9Template (by decide)⟩

/-- Witness for C10 at a one-cell heap holding the caller's data dict. -/
theorem caller_data_not_mutated_witness :
    0 < (Heap.mk [[("a", DVal.str "1")]]).cells.length
    ∧ ((generate_notification_H ⟨[]⟩ 0 "p" [] ⟨[[("a", DVal.str "1")]]⟩ 0 none none
        (some 200)).1.read 0 = (Heap.mk [[("a", DVal.str "1")]]).read 0
      ∧ ¬ ((generate_notification_H ⟨[]⟩ 0 "p" [] ⟨[[("a", DVal.str "1")]]⟩ 0 none none
          (some 200)).2.data_ref < (Heap.mk [[("a", DVal.str "1")]]).cells.length)) :=
  ⟨by decide,
   caller_data_not_mutated ⟨[]⟩ 0 "p" [] ⟨[[("a", DVal.str "1")]]⟩ 0 none none (some 200)
     (by decide)⟩

end CopyLab
